import Mathlib

/-!
Verification of the speech-feedback-generator core against its
natural-language specification.

The development shallowly embeds `src/feedback_generation.py`:

* Python `str.split()` / `str.split("\n")` are modelled over the character
  list (`String.data`) by a structural splitter `split_chars`;
* Python `str.lower()` is modelled by mapping `Char.toLower` over the
  characters (`py_lower`);
* machine floats are modelled by exact rationals `ℚ` (the embedded
  arithmetic is the literal expressions of the source: divisions and
  threshold comparisons);
* fallible code returns `Except PyError _`; `PyError.zeroDivisionError`
  models Python's `ZeroDivisionError`, `PyError.osError` models the
  builtin `OSError`/`FileNotFoundError` raised by `open` on a missing
  file.  The source defines no custom error types.
* `nltk.FreqDist` (a counter dict) is modelled as an association list
  `List (String × Nat)` with pairwise distinct keys; the spec itself
  (§4.3) demands the mapping be treated as an unordered set of pairs,
  so key order carries no meaning here.
-/

/-- Errors the embedded Python code can raise.  `zeroDivisionError` is
Python's `ZeroDivisionError` (raised by `x / 0`), `osError` the builtin
I/O error raised by `open` on a missing or unreadable file. -/
inductive PyError where
  | zeroDivisionError
  | osError
  deriving DecidableEq, Repr

/-- Python `str.lower()` (ASCII case mapping), modelled by mapping
`Char.toLower` over the character list. -/
def py_lower (s : String) : String :=
  String.mk (s.data.map Char.toLower)

/-- Splits a character list at every separator character (a character
satisfying `p`).  Separator characters are dropped; empty segments are
kept, so the result always has one more segment than there are
separators.  This is the semantics of Python `str.split(sep)` for a
one-character separator. -/
def split_chars (p : Char → Bool) : List Char → List (List Char)
  | [] => [[]]
  | c :: cs =>
    match split_chars p cs with
    | [] => [[]]
    | g :: gs => if p c then [] :: g :: gs else (c :: g) :: gs

/-- Python `text.split()` (no separator argument): split on whitespace
runs and drop empty segments.  Models `self.text_from_speech.split()`
(src/feedback_generation.py line 43). -/
def py_split_whitespace (s : String) : List String :=
  ((split_chars Char.isWhitespace s.data).filter (fun g => g ≠ [])).map String.mk

/-- Python `contents.split("\n")`: split on each newline, keeping empty
segments (so contents ending in a newline yield a trailing empty
string).  Models `f.read().split("\n")` (src/feedback_generation.py
lines 52, 57, 62). -/
def py_split_newline (s : String) : List String :=
  (split_chars (fun c => c == Char.ofNat 10) s.data).map String.mk

/-- Stop-word filtering, src/feedback_generation.py line 47:
`[word for word in self.word_list if not word.lower() in stop_words]`. -/
def filter_stop_words (word_list stop_words : List String) : List String :=
  word_list.filter (fun word => !(stop_words.contains (py_lower word)))

/-- Reading one word-list file, src/feedback_generation.py lines 51-52
(and 56-57, 61-62): `f.read().split("\n")`.  The file is modelled as
`Option String`: `none` is a missing/unreadable file, on which Python's
`open` raises an `OSError` (`FileNotFoundError`). -/
def load_word_list (file : Option String) : Except PyError (List String) :=
  match file with
  | none => .error .osError
  | some contents => .ok (py_split_newline contents)

/-- State of a `SpeechFeedbackGenerator` object after `__init__`
(src/feedback_generation.py lines 22-62).  The external collaborators
(audioread, the IBM recognizer, the lexicon files, the NLTK stop-word
list) are inputs; every derived attribute is stored exactly as the
constructor computes it. -/
structure SpeechFeedbackGenerator where
  path_to_audio : String
  audio_channels : Int
  audio_sample_rate : ℚ
  audio_duration : ℚ
  text_from_speech : String
  word_list : List String
  filtered_word_list : List String
  filler_words : List String
  profane_words : List String
  slang_words : List String
  deriving DecidableEq, Repr

/-- The constructor `SpeechFeedbackGenerator.__init__`
(src/feedback_generation.py lines 22-62), with the external inputs made
explicit: audio metadata from audioread, the transcript from the
recognizer, the NLTK stop-word set, and the three word-list files. -/
def mkGenerator (path_to_audio : String) (channels : Int)
    (sample_rate duration : ℚ) (transcript : String)
    (stop_words : List String)
    (filler_file profane_file slang_file : Option String) :
    Except PyError SpeechFeedbackGenerator :=
  let word_list := py_split_whitespace transcript
  let filtered_word_list := filter_stop_words word_list stop_words
  match load_word_list filler_file with
  | .error e => .error e
  | .ok filler_words =>
    match load_word_list profane_file with
    | .error e => .error e
    | .ok profane_words =>
      match load_word_list slang_file with
      | .error e => .error e
      | .ok slang_words =>
        .ok { path_to_audio := path_to_audio
              audio_channels := channels
              audio_sample_rate := sample_rate
              audio_duration := duration
              text_from_speech := transcript
              word_list := word_list
              filtered_word_list := filtered_word_list
              filler_words := filler_words
              profane_words := profane_words
              slang_words := slang_words }

/-- Python division: `a / b` raises `ZeroDivisionError` when `b == 0`,
otherwise yields the exact quotient. -/
def pyDiv (a b : ℚ) : Except PyError ℚ :=
  if b = 0 then .error .zeroDivisionError else .ok (a / b)

/-- Method `check_speech_speed` (src/feedback_generation.py lines
64-69): `len(self.word_list) / self.audio_data['duration'] * 60`. -/
def check_speech_speed (s : SpeechFeedbackGenerator) : Except PyError ℚ :=
  match pyDiv ((s.word_list.length : ℚ)) s.audio_duration with
  | .error e => .error e
  | .ok q => .ok (q * 60)

/-- Key under which `check_word_repetition` counts a token
(src/feedback_generation.py lines 75-80): the literal token for the
hesitation sentinel, the lower-cased token otherwise. -/
def freq_key (word : String) : String :=
  if word = "%HESITATION" then "%HESITATION" else py_lower word

/-- Method `check_word_repetition` (src/feedback_generation.py lines
71-84): builds a `FreqDist` over `filtered_word_list` keyed by
`freq_key` and keeps the entries with count `> 1`.  The counter dict is
modelled as an association list over the distinct keys in the list
(`eraseDups` keeps the first occurrence of each key, like dict
insertion order). -/
def check_word_repetition (s : SpeechFeedbackGenerator) :
    List (String × Nat) :=
  ((s.filtered_word_list.map freq_key).eraseDups).filterMap (fun k =>
    if 1 < s.filtered_word_list.countP (fun word => freq_key word == k)
    then some (k, s.filtered_word_list.countP (fun word => freq_key word == k))
    else none)

/-- Method `check_filler_words` (src/feedback_generation.py lines
86-94): appends, in order, every token of the unfiltered `word_list`
whose lower-cased form is in the filler list or that equals the
hesitation sentinel. -/
def check_filler_words (s : SpeechFeedbackGenerator) : List String :=
  s.word_list.foldl (fun acc word =>
    if s.filler_words.contains (py_lower word) || word == "%HESITATION"
    then acc ++ [word] else acc) []

/-- Method `check_profanity` (src/feedback_generation.py lines
96-104). -/
def check_profanity (s : SpeechFeedbackGenerator) : List String :=
  s.word_list.foldl (fun acc word =>
    if s.profane_words.contains (py_lower word)
    then acc ++ [word] else acc) []

/-- Method `check_slang_words` (src/feedback_generation.py lines
106-114). -/
def check_slang_words (s : SpeechFeedbackGenerator) : List String :=
  s.word_list.foldl (fun acc word =>
    if s.slang_words.contains (py_lower word)
    then acc ++ [word] else acc) []

/-- Message literal, src/feedback_generation.py line 124. -/
def speed_fast_msg : String :=
  "Your speech speed is faster than recommended rate. You may consider speaking more slowly."

/-- Message literal, src/feedback_generation.py line 126. -/
def speed_slow_msg : String :=
  "Your speech speed is slower than recommended rate. You may consider speaking faster."

/-- Message literal, src/feedback_generation.py line 128. -/
def speed_within_msg : String :=
  "Your speech speed is within recommended range."

/-- Message literal, src/feedback_generation.py line 137. -/
def filler_high_msg : String :=
  "The number of filler words is higher than recommended. This may make speech seem less credible."

/-- Message literal, src/feedback_generation.py line 139. -/
def filler_within_msg : String :=
  "The number of filler words is within recommended range."

/-- Message literal, src/feedback_generation.py line 145. -/
def profane_none_msg : String :=
  "No profane words found."

/-- Message literal, src/feedback_generation.py line 147. -/
def profane_some_msg : String :=
  "Some potentially profane words found. It might be better to avoid them unless necessary."

/-- Message literal, src/feedback_generation.py line 153. -/
def slang_none_msg : String :=
  "No slang words found."

/-- Message literal, src/feedback_generation.py line 155. -/
def slang_some_msg : String :=
  "Some potentially slang words found. It might be better to avoid them unless necessary."

/-- Message literal, src/feedback_generation.py line 161. -/
def repetition_none_msg : String :=
  "No word repetition found."

/-- Message literal, src/feedback_generation.py line 163. -/
def repetition_some_msg : String :=
  "There are some word repetitions in your speech. You may have a look at how many times each word is repeated and consider reducing the number of repetitions."

/-- The speed branch of `generate_feedback`, src/feedback_generation.py
lines 123-128: `> 160` too fast, `< 140` too slow, otherwise within
range. -/
def classify_speech_speed (speech_speed : ℚ) : String :=
  if speech_speed > 160 then speed_fast_msg
  else if speech_speed < 140 then speed_slow_msg
  else speed_within_msg

/-- The filler branch of `generate_feedback`, src/feedback_generation.py
lines 136-139: percentage `> 1.28` is higher than recommended. -/
def classify_filler_percentage (filler_word_percentage : ℚ) : String :=
  if filler_word_percentage > 1.28 then filler_high_msg
  else filler_within_msg

/-- The profanity branch of `generate_feedback`,
src/feedback_generation.py lines 144-147. -/
def classify_profanity (profane_word_count : Nat) : String :=
  if profane_word_count = 0 then profane_none_msg else profane_some_msg

/-- The slang branch of `generate_feedback`,
src/feedback_generation.py lines 152-155. -/
def classify_slang (slang_word_count : Nat) : String :=
  if slang_word_count = 0 then slang_none_msg else slang_some_msg

/-- The repetition branch of `generate_feedback`,
src/feedback_generation.py lines 160-163. -/
def classify_repetition (repeated_words_count : Nat) : String :=
  if repeated_words_count = 0 then repetition_none_msg
  else repetition_some_msg

/-- The feedback dict built by `generate_feedback`: five fixed keys
(`speech_speed`, `filler_words`, `profane_words`, `slang_words`,
`word_repetition`), each holding a message string. -/
structure Feedback where
  speech_speed : String
  filler_words : String
  profane_words : String
  slang_words : String
  word_repetition : String
  deriving DecidableEq, Repr

/-- Method `generate_feedback` (src/feedback_generation.py lines
116-165).  `check_speech_speed` runs first (line 122); the filler
percentage `filler_word_count / total_word_count * 100` (line 134) is
an unguarded Python division, so a zero `total_word_count` raises
`ZeroDivisionError` before any filler feedback is produced. -/
def generate_feedback (s : SpeechFeedbackGenerator) :
    Except PyError Feedback :=
  match check_speech_speed s with
  | .error e => .error e
  | .ok speech_speed =>
    match pyDiv ((check_filler_words s).length : ℚ) ((s.word_list.length : ℚ)) with
    | .error e => .error e
    | .ok filler_ratio =>
      .ok { speech_speed := classify_speech_speed speech_speed
            filler_words := classify_filler_percentage (filler_ratio * 100)
            profane_words := classify_profanity (check_profanity s).length
            slang_words := classify_slang (check_slang_words s).length
            word_repetition :=
              classify_repetition (check_word_repetition s).length }

/-- The data printed by `summary` (src/feedback_generation.py lines
167-191), field per printed value, in print order. -/
structure SummaryRecord where
  audio_path : String
  text : String
  word_count : Nat
  speech_speed_value : ℚ
  speech_speed_feedback : String
  filler_count : Nat
  filler_found : List String
  filler_feedback : String
  profane_count : Nat
  profane_found : List String
  profane_feedback : String
  slang_count : Nat
  slang_found : List String
  slang_feedback : String
  repetition_found : List (String × Nat)
  repetition_feedback : String
  deriving DecidableEq, Repr

/-- Method `summary` (src/feedback_generation.py lines 167-191): calls
`generate_feedback` once, then re-invokes every metric method while
printing.  The printed values are collected into a `SummaryRecord`. -/
def summary (s : SpeechFeedbackGenerator) : Except PyError SummaryRecord :=
  match generate_feedback s with
  | .error e => .error e
  | .ok feedback =>
    match check_speech_speed s with
    | .error e => .error e
    | .ok speed =>
      .ok { audio_path := s.path_to_audio
            text := s.text_from_speech
            word_count := s.word_list.length
            speech_speed_value := speed
            speech_speed_feedback := feedback.speech_speed
            filler_count := (check_filler_words s).length
            filler_found := check_filler_words s
            filler_feedback := feedback.filler_words
            profane_count := (check_profanity s).length
            profane_found := check_profanity s
            profane_feedback := feedback.profane_words
            slang_count := (check_slang_words s).length
            slang_found := check_slang_words s
            slang_feedback := feedback.slang_words
            repetition_found := check_word_repetition s
            repetition_feedback := feedback.word_repetition }

/-- Decidable equality on `Except`, for evaluating the embedded methods
at concrete inputs. -/
instance {e a : Type} [DecidableEq e] [DecidableEq a] :
    DecidableEq (Except e a)
  | .error x, .error y =>
    if h : x = y then .isTrue (by rw [h]) else .isFalse (by simp [h])
  | .error _, .ok _ => .isFalse (by simp)
  | .ok _, .error _ => .isFalse (by simp)
  | .ok x, .ok y =>
    if h : x = y then .isTrue (by rw [h]) else .isFalse (by simp [h])

def empty_transcript_state : SpeechFeedbackGenerator :=
  { path_to_audio := "audio_files/empty.mp3"
    audio_channels := 1
    audio_sample_rate := 16000
    audio_duration := 5
    text_from_speech := ""
    word_list := py_split_whitespace ""
    filtered_word_list := filter_stop_words (py_split_whitespace "") ["the"]
    filler_words := ["um"]
    profane_words := ["damn"]
    slang_words := ["gonna"] }

def negative_duration_state : SpeechFeedbackGenerator :=
  { path_to_audio := "audio_files/neg.mp3"
    audio_channels := 1
    audio_sample_rate := 16000
    audio_duration := -1
    text_from_speech := "hello"
    word_list := ["hello"]
    filtered_word_list := ["hello"]
    filler_words := ["um"]
    profane_words := ["damn"]
    slang_words := ["gonna"] }

def two_word_state : SpeechFeedbackGenerator :=
  { path_to_audio := "audio_files/two.mp3"
    audio_channels := 1
    audio_sample_rate := 16000
    audio_duration := 2
    text_from_speech := "hello world"
    word_list := ["hello", "world"]
    filtered_word_list := ["hello", "world"]
    filler_words := ["um"]
    profane_words := ["damn"]
    slang_words := ["gonna"] }

/-- Concrete state whose token `the` is a stop word that also occurs in
all three lexicons. -/
def stopword_lexicon_state : SpeechFeedbackGenerator :=
  { path_to_audio := "audio_files/a.mp3"
    audio_channels := 1
    audio_sample_rate := 16000
    audio_duration := 3
    text_from_speech := "the dog the"
    word_list := ["the", "dog", "the"]
    filtered_word_list := filter_stop_words ["the", "dog", "the"] ["the"]
    filler_words := ["the", "um"]
    profane_words := ["the"]
    slang_words := ["the"] }

/-- Concrete state containing two hesitation sentinel tokens and a stop
word. -/
def hesitation_state : SpeechFeedbackGenerator :=
  { path_to_audio := "audio_files/h.mp3"
    audio_channels := 1
    audio_sample_rate := 16000
    audio_duration := 3
    text_from_speech := "%HESITATION the %HESITATION"
    word_list := ["%HESITATION", "the", "%HESITATION"]
    filtered_word_list :=
      filter_stop_words ["%HESITATION", "the", "%HESITATION"] ["the"]
    filler_words := ["um"]
    profane_words := ["damn"]
    slang_words := ["gonna"] }

/-- Concrete state whose filler word `Um` occurs twice with original
casing. -/
def filler_duplicates_state : SpeechFeedbackGenerator :=
  { path_to_audio := "audio_files/f.mp3"
    audio_channels := 1
    audio_sample_rate := 16000
    audio_duration := 3
    text_from_speech := "Um dog %HESITATION Um"
    word_list := ["Um", "dog", "%HESITATION", "Um"]
    filtered_word_list := ["Um", "dog", "%HESITATION", "Um"]
    filler_words := ["um"]
    profane_words := ["damn"]
    slang_words := ["gonna"] }

/-- Concrete state whose filtered list repeats `go` (in two casings) and
holds `stop` once. -/
def repeated_go_state : SpeechFeedbackGenerator :=
  { path_to_audio := "audio_files/r.mp3"
    audio_channels := 1
    audio_sample_rate := 16000
    audio_duration := 3
    text_from_speech := "go Go stop"
    word_list := ["go", "Go", "stop"]
    filtered_word_list := ["go", "Go", "stop"]
    filler_words := ["um"]
    profane_words := ["damn"]
    slang_words := ["gonna"] }

/-- The record `summary` produces on `two_word_state`. -/
def two_word_summary : SummaryRecord :=
  { audio_path := "audio_files/two.mp3"
    text := "hello world"
    word_count := 2
    speech_speed_value := 60
    speech_speed_feedback := speed_slow_msg
    filler_count := 0
    filler_found := []
    filler_feedback := filler_within_msg
    profane_count := 0
    profane_found := []
    profane_feedback := profane_none_msg
    slang_count := 0
    slang_found := []
    slang_feedback := slang_none_msg
    repetition_found := []
    repetition_feedback := repetition_none_msg }

/-! ### Helper lemmas on characters, strings and lists -/

/-- For code points in the lower-case ASCII letter range, `Char.ofNat`
round-trips through `Char.toNat`. -/
theorem toNat_ofNat_valid (n : Nat) (h1 : 97 ≤ n) (h2 : n ≤ 122) :
    (Char.ofNat n).toNat = n := by
  interval_cases n <;> decide

/-- Characters outside `A`-`Z` are fixed by `Char.toLower`. -/
theorem char_toLower_of_not_upper (c : Char)
    (h : ¬(65 ≤ c.toNat ∧ c.toNat ≤ 90)) : Char.toLower c = c := by
  unfold Char.toLower
  simp only [ge_iff_le, ite_eq_right_iff]
  intro hc
  exact absurd hc h

/-- Characters in `A`-`Z` are shifted by 32 code points by
`Char.toLower`. -/
theorem char_toLower_of_upper (c : Char)
    (h : 65 ≤ c.toNat ∧ c.toNat ≤ 90) :
    (Char.toLower c).toNat = c.toNat + 32 := by
  unfold Char.toLower
  simp only [ge_iff_le, h, and_self, if_true]
  exact toNat_ofNat_valid _ (by omega) (by omega)

/-- Lower-casing a character is idempotent. -/
theorem char_toLower_idem (c : Char) :
    Char.toLower (Char.toLower c) = Char.toLower c := by
  by_cases h : 65 ≤ c.toNat ∧ c.toNat ≤ 90
  · have h2 := char_toLower_of_upper c h
    apply char_toLower_of_not_upper
    omega
  · rw [char_toLower_of_not_upper c h]
    exact char_toLower_of_not_upper c h

/-- Lower-casing a string is idempotent. -/
theorem py_lower_idem (s : String) : py_lower (py_lower s) = py_lower s := by
  unfold py_lower
  simp only [List.map_map]
  exact congrArg String.mk (List.map_congr_left (fun a _ => char_toLower_idem a))

/-- No lower-cased string equals the hesitation sentinel, which contains
upper-case letters. -/
theorem py_lower_ne_sentinel (w : String) : py_lower w ≠ "%HESITATION" := by
  intro h
  have h2 : py_lower (py_lower w) = py_lower "%HESITATION" := by rw [h]
  rw [py_lower_idem, h] at h2
  have h3 : py_lower "%HESITATION" = "%hesitation" := by decide
  rw [h3] at h2
  exact absurd h2 (by decide)

/-- A fold that conditionally appends single elements is a filter. -/
theorem foldl_append_filter {α : Type} (p : α → Bool) (l acc : List α) :
    l.foldl (fun a w => if p w then a ++ [w] else a) acc = acc ++ l.filter p := by
  induction l generalizing acc with
  | nil => simp
  | cons x xs ih =>
    simp only [List.foldl_cons, List.filter_cons]
    by_cases h : p x
    · simp [h, ih]
    · simp [h, ih]

/-- Membership is invariant under the `eraseDups` worker loop. -/
theorem mem_eraseDups_loop {α : Type} [BEq α] [LawfulBEq α] (x : α)
    (as bs : List α) :
    x ∈ List.eraseDups.loop as bs ↔ x ∈ as ∨ x ∈ bs := by
  induction as generalizing bs with
  | nil => simp [List.eraseDups.loop]
  | cons a as ih =>
    simp only [List.eraseDups.loop]
    cases hba : bs.elem a with
    | false =>
      rw [ih]
      simp only [List.mem_cons]
      tauto
    | true =>
      rw [ih]
      have : a ∈ bs := List.elem_iff.mp hba
      simp only [List.mem_cons]
      constructor
      · tauto
      · rintro (⟨rfl | hx⟩ | hx) <;> tauto

/-- Membership is invariant under `eraseDups`. -/
theorem mem_eraseDups {α : Type} [BEq α] [LawfulBEq α] (x : α) (l : List α) :
    x ∈ l.eraseDups ↔ x ∈ l := by
  unfold List.eraseDups
  rw [mem_eraseDups_loop]
  simp

/-- The filler loop of `check_filler_words` is a filter over the
unfiltered token list. -/
theorem check_filler_words_eq_filter (s : SpeechFeedbackGenerator) :
    check_filler_words s = s.word_list.filter (fun word =>
      s.filler_words.contains (py_lower word) || word == "%HESITATION") := by
  unfold check_filler_words
  rw [foldl_append_filter]
  simp

/-- The profanity loop of `check_profanity` is a filter over the
unfiltered token list. -/
theorem check_profanity_eq_filter (s : SpeechFeedbackGenerator) :
    check_profanity s = s.word_list.filter (fun word =>
      s.profane_words.contains (py_lower word)) := by
  unfold check_profanity
  rw [foldl_append_filter]
  simp

/-- The slang loop of `check_slang_words` is a filter over the
unfiltered token list. -/
theorem check_slang_words_eq_filter (s : SpeechFeedbackGenerator) :
    check_slang_words s = s.word_list.filter (fun word =>
      s.slang_words.contains (py_lower word)) := by
  unfold check_slang_words
  rw [foldl_append_filter]
  simp

/-- Members of the repetition mapping are exactly the pairs of a key
occurring in the key image of the filtered list together with its
occurrence count, when that count exceeds one. -/
theorem mem_check_word_repetition_iff (s : SpeechFeedbackGenerator)
    (p : String × Nat) :
    p ∈ check_word_repetition s ↔
      p.1 ∈ s.filtered_word_list.map freq_key ∧
      p.2 = s.filtered_word_list.countP (fun w => freq_key w == p.1) ∧
      1 < p.2 := by
  unfold check_word_repetition
  rw [List.mem_filterMap]
  constructor
  · rintro ⟨k, hk, hsome⟩
    rw [mem_eraseDups] at hk
    by_cases hc : 1 < s.filtered_word_list.countP (fun w => freq_key w == k)
    · rw [if_pos hc] at hsome
      cases hsome
      exact ⟨hk, rfl, hc⟩
    · rw [if_neg hc] at hsome
      exact absurd hsome (by simp)
  · rintro ⟨hk, hcount, hgt⟩
    refine ⟨p.1, (mem_eraseDups _ _).mpr hk, ?_⟩
    rw [← hcount]
    simp [hgt]

/-! ### Success-path characterizations of the feedback methods -/

theorem check_speech_speed_ok (s : SpeechFeedbackGenerator)
    (hd : s.audio_duration ≠ 0) :
    check_speech_speed s =
      .ok ((s.word_list.length : ℚ) / s.audio_duration * 60) := by
  unfold check_speech_speed pyDiv
  rw [if_neg hd]

theorem length_cast_ne_zero (l : List String) (h : l ≠ []) :
    ((l.length : ℚ)) ≠ 0 := by
  simpa [List.length_eq_zero] using h

theorem generate_feedback_ok (s : SpeechFeedbackGenerator)
    (hd : s.audio_duration ≠ 0) (hw : s.word_list ≠ []) :
    generate_feedback s = .ok
      { speech_speed := classify_speech_speed
          ((s.word_list.length : ℚ) / s.audio_duration * 60)
        filler_words := classify_filler_percentage
          (((check_filler_words s).length : ℚ) / (s.word_list.length : ℚ) * 100)
        profane_words := classify_profanity (check_profanity s).length
        slang_words := classify_slang (check_slang_words s).length
        word_repetition :=
          classify_repetition (check_word_repetition s).length } := by
  unfold generate_feedback
  rw [check_speech_speed_ok s hd]
  unfold pyDiv
  rw [if_neg (length_cast_ne_zero _ hw)]

theorem summary_ok (s : SpeechFeedbackGenerator)
    (hd : s.audio_duration ≠ 0) (hw : s.word_list ≠ []) :
    summary s = .ok
      { audio_path := s.path_to_audio
        text := s.text_from_speech
        word_count := s.word_list.length
        speech_speed_value := (s.word_list.length : ℚ) / s.audio_duration * 60
        speech_speed_feedback := classify_speech_speed
          ((s.word_list.length : ℚ) / s.audio_duration * 60)
        filler_count := (check_filler_words s).length
        filler_found := check_filler_words s
        filler_feedback := classify_filler_percentage
          (((check_filler_words s).length : ℚ) / (s.word_list.length : ℚ) * 100)
        profane_count := (check_profanity s).length
        profane_found := check_profanity s
        profane_feedback := classify_profanity (check_profanity s).length
        slang_count := (check_slang_words s).length
        slang_found := check_slang_words s
        slang_feedback := classify_slang (check_slang_words s).length
        repetition_found := check_word_repetition s
        repetition_feedback :=
          classify_repetition (check_word_repetition s).length } := by
  unfold summary
  rw [generate_feedback_ok s hd hw, check_speech_speed_ok s hd]


/-- With an empty token list, `generate_feedback` reaches the unguarded
division `filler_word_count / total_word_count` (or the speech-speed
division when the duration is also zero) and raises `ZeroDivisionError`
in every case. -/
theorem generate_feedback_of_empty_word_list (s : SpeechFeedbackGenerator)
    (hw : s.word_list = []) :
    generate_feedback s = .error .zeroDivisionError := by
  have h0 : ((s.word_list.length : ℚ)) = 0 := by simp [hw]
  unfold generate_feedback check_speech_speed pyDiv
  by_cases hd : s.audio_duration = 0
  · rw [if_pos hd]
  · rw [if_neg hd, if_pos h0]

/-! ### Claim theorems -/

/-- Claim C1, counterexample: on the empty transcript (`word_list` is
`py_split_whitespace ""` which is empty), `generate_feedback` does not
fail with any `EmptyTranscriptError` — no such error exists in the
code; it performs the filler-ratio division and fails with Python's
`ZeroDivisionError`. -/
theorem feedback_on_empty_transcript_divides :
    generate_feedback empty_transcript_state =
      .error .zeroDivisionError := by decide

/-- Claim C1, amended: when the transcript's token sequence is empty,
the filler-ratio computation is reached unguarded and the feedback
generation fails with `ZeroDivisionError` (there is no
`EmptyTranscriptError` in the code). -/
theorem generate_feedback_empty_word_list (s : SpeechFeedbackGenerator)
    (hw : s.word_list = []) :
    generate_feedback s = .error .zeroDivisionError :=
  generate_feedback_of_empty_word_list s hw

/-- Witness for C1's amended theorem at a concrete empty-transcript
state. -/
theorem generate_feedback_empty_word_list_witness :
    generate_feedback
      { path_to_audio := "p", audio_channels := 1, audio_sample_rate := 1,
        audio_duration := 4, text_from_speech := "", word_list := [],
        filtered_word_list := [], filler_words := [], profane_words := [],
        slang_words := [] } = .error .zeroDivisionError :=
  generate_feedback_empty_word_list _ rfl

/-- Claim C2, counterexample: with a negative audio duration (-1 s) and
one token, `check_speech_speed` does not fail at all — it succeeds with
the negative rate -60 wpm; no `InvalidAudioDurationError` exists in the
code. -/
theorem check_speech_speed_negative_duration_succeeds :
    check_speech_speed negative_duration_state = .ok (-60) := by
  rw [check_speech_speed_ok _ (by norm_num [negative_duration_state])]
  norm_num [negative_duration_state]

/-- Claim C2, amended: a zero duration makes `check_speech_speed` fail
with Python's `ZeroDivisionError` (not an `InvalidAudioDurationError`,
which does not exist), while a negative duration is not rejected: the
computation succeeds and returns a non-positive words-per-minute
value. -/
theorem check_speech_speed_nonpositive_duration
    (s : SpeechFeedbackGenerator) :
    (s.audio_duration = 0 →
      check_speech_speed s = .error .zeroDivisionError) ∧
    (s.audio_duration < 0 →
      check_speech_speed s =
        .ok ((s.word_list.length : ℚ) / s.audio_duration * 60) ∧
      (s.word_list.length : ℚ) / s.audio_duration * 60 ≤ 0) := by
  constructor
  · intro hd
    unfold check_speech_speed pyDiv
    rw [if_pos hd]
  · intro hd
    refine ⟨check_speech_speed_ok s (ne_of_lt hd), ?_⟩
    have h1 : (0 : ℚ) ≤ (s.word_list.length : ℚ) := Nat.cast_nonneg _
    have h2 : (s.word_list.length : ℚ) / s.audio_duration ≤ 0 :=
      div_nonpos_of_nonneg_of_nonpos h1 (le_of_lt hd)
    exact mul_nonpos_of_nonpos_of_nonneg h2 (by norm_num)

/-- Witness for C2's amended theorem: a concrete zero-duration state
fails with `ZeroDivisionError`. -/
theorem check_speech_speed_nonpositive_duration_witness :
    check_speech_speed
      { path_to_audio := "p", audio_channels := 1, audio_sample_rate := 1,
        audio_duration := 0, text_from_speech := "hi", word_list := ["hi"],
        filtered_word_list := [], filler_words := [], profane_words := [],
        slang_words := [] } = .error .zeroDivisionError :=
  (check_speech_speed_nonpositive_duration _).1 rfl

/-- Claim C4: for every transcript and every positive duration, the
speech rate computed on a constructed generator is exactly
`word_count / duration_seconds * 60`, where `word_count` is the length
of the whitespace-split token list of the transcript. -/
theorem check_speech_speed_formula (path transcript : String)
    (channels : Int) (sample_rate duration : ℚ) (stop_words : List String)
    (filler_file profane_file slang_file : String)
    (s : SpeechFeedbackGenerator)
    (hdur : 0 < duration)
    (hmk : mkGenerator path channels sample_rate duration transcript
      stop_words (some filler_file) (some profane_file) (some slang_file) =
      .ok s) :
    check_speech_speed s =
      .ok (((py_split_whitespace transcript).length : ℚ) / duration * 60) := by
  unfold mkGenerator load_word_list at hmk
  injection hmk with h
  rw [← h]
  exact check_speech_speed_ok _ (ne_of_gt hdur)


/-- Witness for C4 on the concrete two-word transcript with a duration
of two seconds. -/
theorem check_speech_speed_formula_witness :
    check_speech_speed two_word_state =
      .ok (((py_split_whitespace "hello world").length : ℚ) / 2 * 60) :=
  check_speech_speed_formula "audio_files/two.mp3" "hello world" 1 16000 2 []
    "um" "damn" "gonna" two_word_state (by norm_num) (by decide)

/-- Claim C5: the classifier thresholds are boundary-exact over the
rationals: strictly above 160 is "too fast", strictly below 140 is
"too slow", the closed interval [140, 160] (including exactly 140 and
160) is "within range"; a filler percentage of exactly 1.28 is "within
range" and exactly the values strictly above 1.28 are "higher than
recommended". -/
theorem classifier_thresholds :
    (∀ x : ℚ,
      (classify_speech_speed x = speed_fast_msg ↔ 160 < x) ∧
      (classify_speech_speed x = speed_slow_msg ↔ x < 140) ∧
      (classify_speech_speed x = speed_within_msg ↔ 140 ≤ x ∧ x ≤ 160)) ∧
    classify_speech_speed 140 = speed_within_msg ∧
    classify_speech_speed 160 = speed_within_msg ∧
    classify_filler_percentage 1.28 = filler_within_msg ∧
    (∀ y : ℚ, classify_filler_percentage y = filler_high_msg ↔ 1.28 < y) := by
  have hmain : ∀ x : ℚ,
      (classify_speech_speed x = speed_fast_msg ↔ 160 < x) ∧
      (classify_speech_speed x = speed_slow_msg ↔ x < 140) ∧
      (classify_speech_speed x = speed_within_msg ↔ 140 ≤ x ∧ x ≤ 160) := by
    intro x
    unfold classify_speech_speed
    by_cases h1 : x > 160
    · rw [if_pos h1]
      refine ⟨iff_of_true rfl h1, iff_of_false (by decide) (by linarith), ?_⟩
      exact iff_of_false (by decide) (fun hc => absurd h1 (not_lt.mpr hc.2))
    · rw [if_neg h1]
      by_cases h2 : x < 140
      · rw [if_pos h2]
        refine ⟨iff_of_false (by decide) (by linarith), iff_of_true rfl h2, ?_⟩
        exact iff_of_false (by decide) (fun hc => absurd h2 (not_lt.mpr hc.1))
      · rw [if_neg h2]
        refine ⟨iff_of_false (by decide) h1, iff_of_false (by decide) h2, ?_⟩
        exact iff_of_true rfl ⟨not_lt.mp h2, not_lt.mp h1⟩
  refine ⟨hmain, ?_, ?_, ?_, ?_⟩
  · exact ((hmain 140).2.2).mpr (by norm_num)
  · exact ((hmain 160).2.2).mpr (by norm_num)
  · unfold classify_filler_percentage
    rw [if_neg (by norm_num)]
  · intro y
    unfold classify_filler_percentage
    by_cases h : y > 1.28
    · rw [if_pos h]
      exact iff_of_true rfl h
    · rw [if_neg h]
      exact iff_of_false (by decide) h

/-- Witness for C5 at the concrete rates 165, 139 and filler
percentage 2. -/
theorem classifier_thresholds_witness :
    classify_speech_speed 165 = speed_fast_msg ∧
    classify_speech_speed 139 = speed_slow_msg ∧
    classify_filler_percentage 2 = filler_high_msg :=
  ⟨((classifier_thresholds.1 165).1).mpr (by norm_num),
   ((classifier_thresholds.1 139).2.1).mpr (by norm_num),
   (classifier_thresholds.2.2.2.2 2).mpr (by norm_num)⟩

/-- Claim C6: every entry of the repeated-word mapping has count at
least 2, and any key whose occurrence count (case-insensitive except
the sentinel) in the stop-word-filtered list is exactly one is absent
from the mapping. -/
theorem repeated_words_excludes_singletons (s : SpeechFeedbackGenerator) :
    (∀ p ∈ check_word_repetition s, 2 ≤ p.2) ∧
    (∀ k : String,
      s.filtered_word_list.countP (fun w => freq_key w == k) = 1 →
      k ∉ (check_word_repetition s).map Prod.fst) := by
  constructor
  · intro p hp
    have h := (mem_check_word_repetition_iff s p).mp hp
    omega
  · intro k hk hmem
    rw [List.mem_map] at hmem
    obtain ⟨p, hp, hpk⟩ := hmem
    have h := (mem_check_word_repetition_iff s p).mp hp
    obtain ⟨_, hcnt, hgt⟩ := h
    rw [hpk, hk] at hcnt
    omega

/-- Witness for C6 on a concrete state whose filtered list holds `go`
twice (two casings) and `stop` once. -/
theorem repeated_words_excludes_singletons_witness :
    2 ≤ (("go", 2) : String × Nat).2 ∧
    "stop" ∉ (check_word_repetition repeated_go_state).map Prod.fst :=
  ⟨(repeated_words_excludes_singletons repeated_go_state).1 ("go", 2)
      (by decide),
   (repeated_words_excludes_singletons repeated_go_state).2 "stop"
      (by decide)⟩

/-- Claim C7: filler detection is exactly the filter of the full
unfiltered token list by the predicate "lower-cased form in the filler
lexicon, or literally the hesitation sentinel", which preserves order,
casing and duplicates; in particular each matching token occurring n
times yields n entries. -/
theorem check_filler_words_spec (s : SpeechFeedbackGenerator) :
    check_filler_words s = s.word_list.filter (fun word =>
      s.filler_words.contains (py_lower word) || word == "%HESITATION") ∧
    (∀ w : String,
      (s.filler_words.contains (py_lower w) || w == "%HESITATION") = true →
      (check_filler_words s).count w = s.word_list.count w) := by
  refine ⟨check_filler_words_eq_filter s, ?_⟩
  intro w hw
  rw [check_filler_words_eq_filter s]
  exact List.count_filter hw

/-- Witness for C7: the token `Um` occurs twice in the input and twice
in the detected filler list. -/
theorem check_filler_words_spec_witness :
    (check_filler_words filler_duplicates_state).count "Um" =
      filler_duplicates_state.word_list.count "Um" :=
  (check_filler_words_spec filler_duplicates_state).2 "Um" (by decide)

/-- Claim C3: word-repetition counting reads the stop-word-filtered
list while filler, profanity and slang detection read the unfiltered
list: a token whose lower-cased form is a stop word and is in all
three lexicons is reported by all three detectors, yet its key never
appears in the repeated-word mapping. -/
theorem stopword_lexicon_asymmetry (s : SpeechFeedbackGenerator)
    (stop_words : List String) (w : String)
    (hinv : s.filtered_word_list = filter_stop_words s.word_list stop_words)
    (hstop : stop_words.contains (py_lower w) = true)
    (hw : w ∈ s.word_list)
    (hfill : s.filler_words.contains (py_lower w) = true)
    (hprof : s.profane_words.contains (py_lower w) = true)
    (hslang : s.slang_words.contains (py_lower w) = true) :
    w ∈ check_filler_words s ∧ w ∈ check_profanity s ∧
    w ∈ check_slang_words s ∧
    py_lower w ∉ (check_word_repetition s).map Prod.fst := by
  refine ⟨?_, ?_, ?_, ?_⟩
  · rw [check_filler_words_eq_filter, List.mem_filter]
    exact ⟨hw, by rw [hfill]; rfl⟩
  · rw [check_profanity_eq_filter, List.mem_filter]
    exact ⟨hw, hprof⟩
  · rw [check_slang_words_eq_filter, List.mem_filter]
    exact ⟨hw, hslang⟩
  · intro hmem
    rw [List.mem_map] at hmem
    obtain ⟨p, hp, hpk⟩ := hmem
    obtain ⟨hkey, -, -⟩ := (mem_check_word_repetition_iff s p).mp hp
    rw [hpk] at hkey
    rw [List.mem_map] at hkey
    obtain ⟨t, ht, htk⟩ := hkey
    rw [hinv] at ht
    unfold filter_stop_words at ht
    rw [List.mem_filter] at ht
    obtain ⟨-, htc⟩ := ht
    unfold freq_key at htk
    by_cases hsent : t = "%HESITATION"
    · rw [if_pos hsent] at htk
      exact py_lower_ne_sentinel w htk.symm
    · rw [if_neg hsent] at htk
      rw [htk, hstop] at htc
      exact absurd htc (by decide)

/-- Witness for C3 with the stop word `the` placed in all three
lexicons. -/
theorem stopword_lexicon_asymmetry_witness :
    "the" ∈ check_filler_words stopword_lexicon_state ∧
    "the" ∈ check_profanity stopword_lexicon_state ∧
    "the" ∈ check_slang_words stopword_lexicon_state ∧
    py_lower "the" ∉
      (check_word_repetition stopword_lexicon_state).map Prod.fst :=
  stopword_lexicon_asymmetry stopword_lexicon_state ["the"] "the" rfl
    (by decide) (by decide) (by decide) (by decide) (by decide)

/-- A token is counted under the sentinel key exactly when it is the
literal sentinel. -/
theorem freq_key_eq_sentinel_iff (t : String) :
    freq_key t = "%HESITATION" ↔ t = "%HESITATION" := by
  unfold freq_key
  by_cases hsent : t = "%HESITATION"
  · rw [if_pos hsent]
    exact iff_of_true rfl hsent
  · rw [if_neg hsent]
    exact iff_of_false (py_lower_ne_sentinel t) hsent

/-- The repetition count under the sentinel key is the number of
literal sentinel occurrences. -/
theorem countP_sentinel_eq_count (l : List String) :
    l.countP (fun w => freq_key w == "%HESITATION") = l.count "%HESITATION" := by
  rw [List.count_eq_countP]
  apply List.countP_congr
  intro x _
  constructor
  · intro hx
    exact beq_iff_eq.mpr ((freq_key_eq_sentinel_iff x).mp (beq_iff_eq.mp hx))
  · intro hx
    exact beq_iff_eq.mpr ((freq_key_eq_sentinel_iff x).mpr (beq_iff_eq.mp hx))

/-- Claim C8: the hesitation sentinel survives stop-word filtering
(its lower-cased form is not a stop word), is counted by
`check_word_repetition` under its own literal key without lower-casing
(the sentinel count equals the count of literal occurrences, so a
token like `%hesitation` keeps its own key and is not counted under
the sentinel key), and is counted by filler detection. -/
theorem hesitation_sentinel_handling (s : SpeechFeedbackGenerator)
    (stop_words : List String)
    (hinv : s.filtered_word_list = filter_stop_words s.word_list stop_words)
    (hsw : stop_words.contains "%hesitation" = false) :
    ("%HESITATION" ∈ s.word_list → "%HESITATION" ∈ s.filtered_word_list) ∧
    freq_key "%HESITATION" = "%HESITATION" ∧
    freq_key "%hesitation" = "%hesitation" ∧
    s.filtered_word_list.countP (fun w => freq_key w == "%HESITATION") =
      s.filtered_word_list.count "%HESITATION" ∧
    (2 ≤ s.filtered_word_list.count "%HESITATION" →
      ("%HESITATION", s.filtered_word_list.count "%HESITATION") ∈
        check_word_repetition s) ∧
    ("%HESITATION" ∈ s.word_list → "%HESITATION" ∈ check_filler_words s) := by
  refine ⟨?_, by decide, by decide, countP_sentinel_eq_count _, ?_, ?_⟩
  · intro hmem
    rw [hinv]
    unfold filter_stop_words
    rw [List.mem_filter]
    refine ⟨hmem, ?_⟩
    have hlow : py_lower "%HESITATION" = "%hesitation" := by decide
    rw [hlow, hsw]
    rfl
  · intro hcount
    rw [mem_check_word_repetition_iff]
    have hcnt := countP_sentinel_eq_count s.filtered_word_list
    refine ⟨?_, by rw [hcnt], by omega⟩
    have hpos : 0 < s.filtered_word_list.countP
        (fun w => freq_key w == "%HESITATION") := by omega
    rw [List.countP_pos_iff] at hpos
    obtain ⟨t, ht, htk⟩ := hpos
    rw [List.mem_map]
    exact ⟨t, ht, beq_iff_eq.mp htk⟩
  · intro hmem
    rw [check_filler_words_eq_filter, List.mem_filter]
    refine ⟨hmem, ?_⟩
    simp

/-- Witness for C8 on a concrete state with two sentinel tokens. -/
theorem hesitation_sentinel_handling_witness :
    ("%HESITATION", 2) ∈ check_word_repetition hesitation_state := by
  have h := (hesitation_sentinel_handling hesitation_state ["the"] rfl
    (by decide)).2.2.2.2.1 (by decide)
  have h2 : hesitation_state.filtered_word_list.count "%HESITATION" = 2 := by
    decide
  rw [h2] at h
  exact h

/-- Splitting a character list that ends in a separator yields a
trailing empty segment (and at least two segments). -/
theorem split_chars_trailing_sep (p : Char → Bool) (c0 : Char)
    (hc0 : p c0 = true) (l : List Char) :
    (split_chars p (l ++ [c0])).getLast? = some [] ∧
    2 ≤ (split_chars p (l ++ [c0])).length := by
  induction l with
  | nil =>
    simp [split_chars, hc0]
  | cons c cs ih =>
    obtain ⟨hlast, hlen⟩ := ih
    simp only [List.cons_append, split_chars]
    cases hsc : split_chars p (cs ++ [c0]) with
    | nil =>
      rw [hsc] at hlen
      simp at hlen
    | cons g gs =>
      rw [hsc] at hlast hlen
      cases gs with
      | nil => simp at hlen
      | cons g2 gs2 =>
        by_cases hpc : p c
        · simp only [hsc, hpc, if_true]
          rw [List.getLast?_cons_cons] at hlast ⊢
          exact ⟨hlast, by simp⟩
        · simp only [hsc]
          rw [if_neg hpc]
          rw [List.getLast?_cons_cons] at hlast ⊢
          refine ⟨hlast, ?_⟩
          simp

/-- Claim C9, counterexample: a word-list file whose contents end in a
newline is split into entries with a trailing empty string — the
terminating newline is NOT trimmed, so an empty entry is introduced. -/
theorem load_word_list_trailing_empty :
    load_word_list (some "um\nuh\n") = .ok ["um", "uh", ""] := by decide

/-- Claim C9, amended: the loader splits file contents on the newline
character without trimming, so contents ending in a newline always
yield a trailing empty entry; a missing or unreadable list file makes
the load (and the whole constructor) fail with the propagated builtin
I/O error — no `LexiconLoadError` type exists in the code. -/
theorem load_word_list_behavior :
    (∀ contents : String,
      load_word_list (some contents) = .ok (py_split_newline contents)) ∧
    (∀ contents : String,
      (py_split_newline (contents ++ "\n")).getLast? = some "") ∧
    load_word_list none = .error .osError ∧
    (∀ (path transcript : String) (channels : Int)
       (sample_rate duration : ℚ) (stop_words : List String)
       (profane_file slang_file : Option String),
      mkGenerator path channels sample_rate duration transcript stop_words
        none profane_file slang_file = .error .osError) := by
  refine ⟨fun contents => rfl, ?_, rfl, fun _ _ _ _ _ _ _ _ => rfl⟩
  intro contents
  unfold py_split_newline
  rw [List.getLast?_map]
  have hdata : (contents ++ "\n").data = contents.data ++ ['\n'] := by
    rw [String.data_append]
  rw [hdata]
  have h := split_chars_trailing_sep (fun c => c == Char.ofNat 10)
    (Char.ofNat 10) (by decide) contents.data
  have h10 : ('\n' : Char) = Char.ofNat 10 := by decide
  rw [h10, h.1]
  rfl

/-- Claim C10: the metric methods are deterministic, mutation-free
functions of the generator state, so the values `summary` recomputes
and prints are consistent with the messages `generate_feedback`
classified from its own, separate calls: every printed count equals
the length of the printed list, and every printed message equals the
classifier applied to the printed metric value. -/
theorem summary_consistent_recomputation (s : SpeechFeedbackGenerator)
    (r : SummaryRecord) (hok : summary s = .ok r) :
    r.word_count = s.word_list.length ∧
    r.speech_speed_value = (s.word_list.length : ℚ) / s.audio_duration * 60 ∧
    r.speech_speed_feedback = classify_speech_speed r.speech_speed_value ∧
    r.filler_found = check_filler_words s ∧
    r.filler_count = r.filler_found.length ∧
    r.filler_feedback = classify_filler_percentage
      ((r.filler_count : ℚ) / (r.word_count : ℚ) * 100) ∧
    r.profane_found = check_profanity s ∧
    r.profane_count = r.profane_found.length ∧
    r.profane_feedback = classify_profanity r.profane_count ∧
    r.slang_found = check_slang_words s ∧
    r.slang_count = r.slang_found.length ∧
    r.slang_feedback = classify_slang r.slang_count ∧
    r.repetition_found = check_word_repetition s ∧
    r.repetition_feedback = classify_repetition r.repetition_found.length := by
  by_cases hd : s.audio_duration = 0
  · exfalso
    have herr : summary s = .error .zeroDivisionError := by
      unfold summary generate_feedback check_speech_speed pyDiv
      rw [if_pos hd]
    rw [herr] at hok
    exact Except.noConfusion hok
  by_cases hw : s.word_list = []
  · exfalso
    have herr := generate_feedback_of_empty_word_list s hw
    unfold summary at hok
    rw [herr] at hok
    exact Except.noConfusion hok
  rw [summary_ok s hd hw] at hok
  injection hok with h
  rw [← h]
  exact ⟨rfl, rfl, rfl, rfl, rfl, rfl, rfl, rfl, rfl, rfl, rfl, rfl, rfl, rfl⟩

/-- Witness for C10 on the concrete two-word state. -/
theorem summary_consistent_recomputation_witness :
    two_word_summary.word_count = two_word_state.word_list.length ∧
    two_word_summary.speech_speed_value =
      (two_word_state.word_list.length : ℚ) /
        two_word_state.audio_duration * 60 ∧
    two_word_summary.speech_speed_feedback =
      classify_speech_speed two_word_summary.speech_speed_value ∧
    two_word_summary.filler_found = check_filler_words two_word_state ∧
    two_word_summary.filler_count = two_word_summary.filler_found.length ∧
    two_word_summary.filler_feedback = classify_filler_percentage
      ((two_word_summary.filler_count : ℚ) /
        (two_word_summary.word_count : ℚ) * 100) ∧
    two_word_summary.profane_found = check_profanity two_word_state ∧
    two_word_summary.profane_count =
      two_word_summary.profane_found.length ∧
    two_word_summary.profane_feedback =
      classify_profanity two_word_summary.profane_count ∧
    two_word_summary.slang_found = check_slang_words two_word_state ∧
    two_word_summary.slang_count = two_word_summary.slang_found.length ∧
    two_word_summary.slang_feedback =
      classify_slang two_word_summary.slang_count ∧
    two_word_summary.repetition_found =
      check_word_repetition two_word_state ∧
    two_word_summary.repetition_feedback =
      classify_repetition two_word_summary.repetition_found.length := by
  have hval : ((two_word_state.word_list.length : ℚ)) /
      two_word_state.audio_duration * 60 = 60 := by
    norm_num [two_word_state]
  have hfl : (check_filler_words two_word_state).length = 0 := by decide
  have hok : summary two_word_state = .ok two_word_summary := by
    rw [summary_ok two_word_state (by norm_num [two_word_state])
      (by simp [two_word_state])]
    refine congrArg Except.ok ?_
    unfold two_word_summary
    rw [SummaryRecord.mk.injEq]
    refine ⟨rfl, rfl, rfl, by rw [hval], ?_, by rw [hfl], by decide, ?_,
      by decide, by decide, by decide, by decide, by decide, by decide,
      by decide, by decide⟩
    · rw [hval]
      unfold classify_speech_speed
      rw [if_neg (by norm_num), if_pos (by norm_num)]
    · have h2 : ((check_filler_words two_word_state).length : ℚ) /
          ((two_word_state.word_list.length : ℚ)) * 100 = 0 := by
        rw [hfl]
        norm_num
      rw [h2]
      unfold classify_filler_percentage
      rw [if_neg (by norm_num)]
  exact summary_consistent_recomputation two_word_state two_word_summary hok
